import Mathlib

/-!
# Verification of the Secure-File-Management-System cryptographic core

This file embeds the two source modules of the repository in Lean 4 and
proves the specification claims about them:

* `src/utils/mfa.ts` — MFA secret generation (`generateMFASecret`),
  provisioning-URI construction (`generateMFAQRCode`, embedded here as
  `otpAuthUrl`), and TOTP verification (`verifyTOTP`).
* `src/components/upload-modal.tsx` — the upload modal's state and its
  handlers (`handleFileChange`, `handleDrop`, `handleEncrypt`).

The source delegates TOTP code generation and Base32 decoding to the external
`otpauth` library, which is not part of the repository; those parts are
modelled from the specification (§3 MfaSecret, §4.3 TotpEngine), which fully
fixes the algorithm: RFC 4648 Base32, HMAC-SHA1, RFC 4226 dynamic truncation,
time counter `floor(timestamp / period)`.

Bytes are `Nat` below 256, 32-bit words are `Nat` reduced mod `2^32`,
timestamps are `Nat` milliseconds since the epoch (the source uses
`Date.now()`, which is far above one period in practice; theorems that
subtract a period carry the corresponding lower bound as a hypothesis).
-/

/-- 32-bit truncation of a natural number. -/
def u32 (n : Nat) : Nat := n % 4294967296

/-- Left rotation of a 32-bit word by `s` bits (`0 < s < 32`). -/
def rotl (s n : Nat) : Nat := u32 ((n <<< s) ||| (n >>> (32 - s)))

/-- Big-endian 8-byte encoding of a natural number (its low 64 bits); the
"timeCounter as 8-byte big-endian" message of spec §4.3. -/
def bytesBE8 (n : Nat) : List Nat :=
  [(n >>> 56) &&& 255, (n >>> 48) &&& 255, (n >>> 40) &&& 255, (n >>> 32) &&& 255,
   (n >>> 24) &&& 255, (n >>> 16) &&& 255, (n >>> 8) &&& 255, n &&& 255]

/-- Group a byte list into big-endian 32-bit words (FIPS 180-1 §4). -/
def bytesToWords : List Nat → List Nat
  | b1 :: b2 :: b3 :: b4 :: rest =>
      ((b1 <<< 24) ||| (b2 <<< 16) ||| (b3 <<< 8) ||| b4) :: bytesToWords rest
  | _ => []

/-- One step of the SHA-1 message-schedule extension: append
`rotl 1 (w[i-3] xor w[i-8] xor w[i-14] xor w[i-16])`. -/
def sha1ExtendStep (ws : List Nat) : List Nat :=
  let l := ws.length
  ws ++ [rotl 1 ((ws.getD (l - 3) 0) ^^^ (ws.getD (l - 8) 0) ^^^
                 (ws.getD (l - 14) 0) ^^^ (ws.getD (l - 16) 0))]

/-- Iterate the schedule extension `n` times (64 times turns the 16 chunk
words into the 80 schedule words). -/
def sha1ExtendN : Nat → List Nat → List Nat
  | 0, ws => ws
  | n + 1, ws => sha1ExtendN n (sha1ExtendStep ws)

/-- One SHA-1 round on state `(a,b,c,d,e)` with round index `i` and schedule
word `w`. -/
def sha1Round (i : Nat) (st : Nat × Nat × Nat × Nat × Nat) (w : Nat) :
    Nat × Nat × Nat × Nat × Nat :=
  let (a, b, c, d, e) := st
  let f :=
    if i < 20 then (b &&& c) ||| ((b ^^^ 4294967295) &&& d)
    else if i < 40 then b ^^^ c ^^^ d
    else if i < 60 then (b &&& c) ||| (b &&& d) ||| (c &&& d)
    else b ^^^ c ^^^ d
  let k :=
    if i < 20 then 1518500249
    else if i < 40 then 1859775393
    else if i < 60 then 2400959708
    else 3395469782
  let temp := u32 (rotl 5 a + f + e + k + w)
  (temp, a, rotl 30 b, c, d)

/-- Run the 80 SHA-1 rounds over the schedule words. -/
def sha1Rounds : Nat → List Nat → Nat × Nat × Nat × Nat × Nat →
    Nat × Nat × Nat × Nat × Nat
  | _, [], st => st
  | i, w :: ws, st => sha1Rounds (i + 1) ws (sha1Round i st w)

/-- Compress one 64-byte chunk into the running hash state. -/
def sha1Chunk (h : Nat × Nat × Nat × Nat × Nat) (chunk : List Nat) :
    Nat × Nat × Nat × Nat × Nat :=
  let ws := sha1ExtendN 64 (bytesToWords chunk)
  let (a, b, c, d, e) := sha1Rounds 0 ws h
  let (h0, h1, h2, h3, h4) := h
  (u32 (h0 + a), u32 (h1 + b), u32 (h2 + c), u32 (h3 + d), u32 (h4 + e))

/-- Split a byte list into 64-byte chunks; the fuel argument (instantiated
with the list length, and never exhausted on padded input) makes the
recursion structural. -/
def chunks64 : Nat → List Nat → List (List Nat)
  | 0, _ => []
  | _, [] => []
  | fuel + 1, l => l.take 64 :: chunks64 fuel (l.drop 64)

/-- SHA-1 padding: append `0x80`, zeros to 56 mod 64, and the 64-bit
big-endian bit length. -/
def sha1Pad (msg : List Nat) : List Nat :=
  let l := msg.length
  let zeros := (120 - ((l + 1) % 64)) % 64
  msg ++ [128] ++ List.replicate zeros 0 ++ bytesBE8 (l * 8)

/-- Serialize a 32-bit word to 4 big-endian bytes. -/
def wordBytes (n : Nat) : List Nat :=
  [(n >>> 24) &&& 255, (n >>> 16) &&& 255, (n >>> 8) &&& 255, n &&& 255]

/-- Modelled from the spec: the SHA-1 digest (20 bytes) underlying the
HMAC-SHA1 named in §4.3; the source obtains it from the external `otpauth`
library, which is not part of the repository. -/
def sha1 (msg : List Nat) : List Nat :=
  let p := sha1Pad msg
  let (h0, h1, h2, h3, h4) :=
    (chunks64 p.length p).foldl sha1Chunk
      (1732584193, 4023233417, 2562383102, 271733878, 3285377520)
  wordBytes h0 ++ wordBytes h1 ++ wordBytes h2 ++ wordBytes h3 ++ wordBytes h4

/-- Modelled from the spec: `HMAC(algorithm, key=secret_bytes, message=...)`
of §4.3 step 2, instantiated at SHA-1 (RFC 2104, block size 64). -/
def hmacSha1 (key msg : List Nat) : List Nat :=
  let k0 := if key.length > 64 then sha1 key else key
  let k := k0 ++ List.replicate (64 - k0.length) 0
  let ipad := k.map (fun b => b ^^^ 54)
  let opad := k.map (fun b => b ^^^ 92)
  sha1 (opad ++ sha1 (ipad ++ msg))

/-- Zero-padded decimal string of `n` with `digits` digits (the spec's
"reduce modulo `10^digits`, zero-pad to `digits` length" applied to
`n < 10^digits`). -/
def totpFormat (digits n : Nat) : String :=
  String.mk ((List.range digits).reverse.map
    (fun i => Char.ofNat (48 + (n / 10 ^ i) % 10)))

/-- The `TotpParameters` record of spec §3: hash algorithm name, number of
code digits, period in seconds. -/
structure TotpParameters where
  algorithm : String
  digits : Nat
  period : Nat
deriving DecidableEq

/-- HMAC dispatch on the algorithm name; the source only ever selects
`"SHA1"` (src/utils/mfa.ts line 44), the single algorithm modelled here. -/
def hmacForAlg (alg : String) (key msg : List Nat) : List Nat :=
  if alg = "SHA1" then hmacSha1 key msg else []

/-- Modelled from the spec: §4.3 `generate` steps 2-3 — HMAC of the 8-byte
big-endian counter, RFC 4226 dynamic truncation (4-bit offset from the low
nibble of the last HMAC byte, 4 bytes from that offset, top bit masked),
reduction mod `10^digits`, zero-padding.  The source obtains this code from
the external `otpauth` library's `totp.generate`. -/
def hotp (p : TotpParameters) (key : List Nat) (counter : Nat) : String :=
  let hs := hmacForAlg p.algorithm key (bytesBE8 counter)
  let offset := hs.getD 19 0 &&& 15
  let bin := ((hs.getD offset 0 &&& 127) <<< 24) |||
             ((hs.getD (offset + 1) 0) <<< 16) |||
             ((hs.getD (offset + 2) 0) <<< 8) |||
             (hs.getD (offset + 3) 0)
  totpFormat p.digits (bin % 10 ^ p.digits)

/-- Modelled from the spec: §4.3 `generate` step 1 — the TOTP code at a
timestamp (in milliseconds) is the HOTP code of time counter
`floor(timestamp_seconds / period)`. -/
def totpAt (p : TotpParameters) (key : List Nat) (tms : Nat) : String :=
  hotp p key (tms / (p.period * 1000))

/-- Value of a character in the RFC 4648 Base32 alphabet `A-Z2-7`
(`A` is 0, `2` is 26), or `none` for a character outside the alphabet. -/
def base32Val (c : Char) : Option Nat :=
  if 65 ≤ c.toNat ∧ c.toNat ≤ 90 then some (c.toNat - 65)
  else if 50 ≤ c.toNat ∧ c.toNat ≤ 55 then some (26 + (c.toNat - 50))
  else none

/-- Accumulate 5-bit Base32 values into bytes (emitting a byte whenever at
least 8 bits are buffered); fails on the first invalid character. -/
def b32Fold : List Char → Nat → Nat → List Nat → Option (List Nat)
  | [], _, _, acc => some acc.reverse
  | c :: cs, bits, value, acc =>
    match base32Val c.toUpper with
    | none => none
    | some v =>
      let value2 := (value <<< 5) ||| v
      let bits2 := bits + 5
      if bits2 ≥ 8 then
        b32Fold cs (bits2 - 8) value2 (((value2 >>> (bits2 - 8)) &&& 255) :: acc)
      else b32Fold cs bits2 value2 acc

/-- Modelled from the spec: §3 MfaSecret — RFC 4648 Base32 decoding,
case-insensitive, alphabet `A-Z2-7`, trailing `=` padding tolerated,
`none` on any other character.  The source obtains this from the external
`otpauth` library's `Secret.fromBase32`, whose failure the §4.3 failure
semantics describe ("malformed secret (non-Base32) causes verify to return
false"). -/
def base32Decode (s : String) : Option (List Nat) :=
  b32Fold ((s.data.reverse.dropWhile (fun c => c = '=')).reverse) 0 0 []

/-- Equality test on character lists that walks the lists left to right and
stops at the first mismatch. -/
def charListEq : List Char → List Char → Bool
  | [], [] => true
  | a :: as, b :: bs => a == b && charListEq as bs
  | _, _ => false

/-- The string equality the source applies with `===` (src/utils/mfa.ts
line 59): an ordinary early-exit comparison, not a constant-time one. -/
def jsStrEq (a b : String) : Bool := charListEq a.data b.data

/-- Number of character comparisons the early-exit equality performs on two
lists: one per position until the first mismatch. -/
def charCmpSteps : List Char → List Char → Nat
  | a :: as, b :: bs => 1 + (if a = b then charCmpSteps as bs else 0)
  | _, _ => 0

/-- Cost model of `jsStrEq`: number of character comparisons performed
(after the length check).  A constant-time comparison would perform the
same number of comparisons for all inputs of equal length. -/
def jsStrEqSteps (a b : String) : Nat :=
  if a.length = b.length then charCmpSteps a.data b.data else 0

/-! ## src/utils/mfa.ts -/

/-- Base32 character set (RFC 4648); src/utils/mfa.ts line 7. -/
def BASE32_CHARS : String := "ABCDEFGHIJKLMNOPQRSTUVWXYZ234567"

/-- The random sources relevant to the generator: the general-purpose PRNG
the source calls, and the browser CSPRNG the spec demands. -/
inductive RandomSource where
  | mathRandom
  | cryptoGetRandomValues
deriving DecidableEq

/-- Whether a random source is cryptographically secure: `Math.random` is
specified (ECMA-262 §21.3.2.27) without any cryptographic guarantee, while
`crypto.getRandomValues` is the Web Crypto CSPRNG. -/
def RandomSource.isCSPRNG : RandomSource → Bool
  | .mathRandom => false
  | .cryptoGetRandomValues => true

/-- The random source `generateMFASecret` draws each character index from:
`Math.floor(Math.random() * BASE32_CHARS.length)` at src/utils/mfa.ts
line 14. -/
def generateMFASecretSource : RandomSource := RandomSource.mathRandom

/-- The generator of src/utils/mfa.ts lines 10-18: sixteen iterations, each
appending `BASE32_CHARS[randomIndex]`.  The draws
`Math.floor(Math.random() * 32)` always land in `0..31` (since
`Math.random() < 1`), so the random tape is modelled as a function
`Nat → Fin 32` giving the index drawn at each iteration. -/
def generateMFASecret (r : Nat → Fin 32) : String :=
  String.mk ((List.range 16).map (fun i => BASE32_CHARS.data.getD (r i) 'A'))

/-- Percent-encoding hex digit (uppercase, as `encodeURIComponent`
produces). -/
def uriHexDigit (n : Nat) : Char :=
  if n < 10 then Char.ofNat (48 + n) else Char.ofNat (55 + n)

/-- UTF-8 byte encoding of a Unicode scalar value. -/
def utf8Bytes (n : Nat) : List Nat :=
  if n < 128 then [n]
  else if n < 2048 then [192 ||| (n >>> 6), 128 ||| (n &&& 63)]
  else if n < 65536 then
    [224 ||| (n >>> 12), 128 ||| ((n >>> 6) &&& 63), 128 ||| (n &&& 63)]
  else
    [240 ||| (n >>> 18), 128 ||| ((n >>> 12) &&& 63),
     128 ||| ((n >>> 6) &&& 63), 128 ||| (n &&& 63)]

/-- The characters `encodeURIComponent` leaves unescaped (ECMA-262:
letters, digits, and `- _ . ! ~ * ' ( )`). -/
def uriUnreserved (c : Char) : Bool :=
  (65 ≤ c.toNat && c.toNat ≤ 90) || (97 ≤ c.toNat && c.toNat ≤ 122) ||
  (48 ≤ c.toNat && c.toNat ≤ 57) ||
  ['-', '_', '.', '!', '~', '*', '(', ')'].contains c || c == Char.ofNat 39

/-- Percent-encoding of one character: unreserved characters pass through,
every other character becomes `%XX` per UTF-8 byte. -/
def pctEncodeChar (c : Char) : List Char :=
  if uriUnreserved c then [c]
  else (utf8Bytes c.toNat).foldr
    (fun b acc => '%' :: uriHexDigit (b / 16) :: uriHexDigit (b % 16) :: acc) []

/-- ECMA-262 `encodeURIComponent`, applied by the source to the issuer and
the account label. -/
def encodeURIComponent (s : String) : String :=
  String.mk (s.data.foldr (fun c acc => pctEncodeChar c ++ acc) [])

/-- The provisioning URI `generateMFAQRCode` hands to the QR collaborator
(src/utils/mfa.ts line 28); the QR image rendering itself
(`QRCode.toDataURL`) is an external collaborator outside the core. -/
def otpAuthUrl (secret email appName : String) : String :=
  "otpauth://totp/" ++ encodeURIComponent appName ++ ":" ++
    encodeURIComponent email ++ "?secret=" ++ secret ++ "&issuer=" ++
    encodeURIComponent appName ++ "&algorithm=SHA1&digits=6&period=30"

/-- The TOTP parameters `verifyTOTP` fixes in its `OTPAuth.TOTP`
constructor call (src/utils/mfa.ts lines 44-46). -/
def verifyTotpParams : TotpParameters := ⟨"SHA1", 6, 30⟩

/-- The verifier of src/utils/mfa.ts lines 38-64: decode the Base32 secret
(a failure is caught and yields `false`), generate the codes for `now`,
`now - 30000` and `now + 30000` milliseconds, and compare the supplied code
with each using `===`.  The three `Date.now()` reads of the source are
modelled as one instant `now`. -/
def verifyTOTP (code secret : String) (now : Nat) : Bool :=
  match base32Decode secret with
  | none => false
  | some key =>
    let currentToken := totpAt verifyTotpParams key now
    let previousToken := totpAt verifyTotpParams key (now - 30000)
    let nextToken := totpAt verifyTotpParams key (now + 30000)
    jsStrEq code currentToken || jsStrEq code previousToken ||
      jsStrEq code nextToken

/-! ## src/components/upload-modal.tsx -/

/-- The fields of a DOM `File` the modal reads: `name`, `type`, `size`
(bytes), `lastModified` (milliseconds). -/
structure JsFile where
  name : String
  type : String
  size : Nat
  lastModified : Nat
deriving DecidableEq

/-- The `EncryptionResult` shape the modal consumes (imported from
`@/utils/encryption`, read at upload-modal.tsx lines 236-243): encrypted
file, algorithm id, key, iv and checksum as transfer-safe strings. -/
structure EncryptionResult where
  encryptedFile : JsFile
  algorithm : String
  encryptionKey : String
  iv : String
  checksum : String
deriving DecidableEq

/-- The inputs to the `fileDetails` display record set at upload-modal.tsx
lines 83-87 and 129-133.  The source stores display strings
(`(size/1024).toFixed(2) + ' KB'`, `toLocaleString()`); their
floating-point/locale formatting is presentation outside the shallow
embedding, so the raw values feeding it are recorded. -/
structure FileDetails where
  type : String
  sizeBytes : Nat
  lastModified : Nat
deriving DecidableEq

/-- The `useState` cells of `UploadModal` (upload-modal.tsx lines 41-56). -/
structure UploadModalState where
  file : Option JsFile
  preview : Option String
  isEncrypting : Bool
  isUploading : Bool
  encrypt : Bool
  encryptionResult : Option EncryptionResult
  encrypted : Bool
  fileDetails : Option FileDetails
  tags : List String
  isPreviewModalOpen : Bool
  previewContent : Option String
  showEncryptionConfirmation : Bool
deriving DecidableEq

/-- The file-input change handler (upload-modal.tsx lines 75-91):
`e.target.files?.[0]` is the optional argument; when a file is selected the
handler stores it, clears `encrypted`, `encryptionResult` and
`showEncryptionConfirmation`, and records the file details
(`type || 'Unknown'`).  `generatePreview` resolves asynchronously after the
handler returns, so `preview` is unchanged here. -/
def handleFileChange (s : UploadModalState) (selected : Option JsFile) :
    UploadModalState :=
  match selected with
  | none => s
  | some f =>
    { s with
      file := some f
      encrypted := false
      encryptionResult := none
      showEncryptionConfirmation := false
      fileDetails := some ⟨if f.type = "" then "Unknown" else f.type,
                           f.size, f.lastModified⟩ }

/-- The drop handler (upload-modal.tsx lines 120-137):
`e.dataTransfer.files?.[0]` is the optional argument; the state update is
the same as `handleFileChange` (the `preventDefault` call is a DOM side
effect outside the state). -/
def handleDrop (s : UploadModalState) (dropped : Option JsFile) :
    UploadModalState :=
  match dropped with
  | none => s
  | some f =>
    { s with
      file := some f
      encrypted := false
      encryptionResult := none
      showEncryptionConfirmation := false
      fileDetails := some ⟨if f.type = "" then "Unknown" else f.type,
                           f.size, f.lastModified⟩ }

/-- The encrypt handler (upload-modal.tsx lines 174-205), with the awaited
`encryptFile(file)` outcome passed as an explicit `Except` (the pipeline
lives in `@/utils/encryption`, an external collaborator).  Without a file it
returns unchanged.  On success it stores the result and sets `encrypted` and
`showEncryptionConfirmation`; on failure it shows a toast (an external
effect) and changes no other cell.  The `finally` clause resets
`isEncrypting` on every path. -/
def handleEncrypt (s : UploadModalState)
    (outcome : Except String EncryptionResult) : UploadModalState :=
  match s.file with
  | none => s
  | some _ =>
    match outcome with
    | .ok r =>
      { s with
        isEncrypting := false
        encryptionResult := some r
        encrypted := true
        showEncryptionConfirmation := true }
    | .error _ => { s with isEncrypting := false }

/-! ## Substring machinery for the provisioning URI -/

/-- Whether `p` is a prefix of `l`, as a Boolean on character lists. -/
def listStartsWith : List Char → List Char → Bool
  | [], _ => true
  | _ :: _, [] => false
  | p :: ps, x :: xs => p == x && listStartsWith ps xs

/-- Whether `p` occurs as a contiguous sublist of `l`. -/
def listHasSub : List Char → List Char → Bool
  | p, [] => p.isEmpty
  | p, x :: xs => listStartsWith p (x :: xs) || listHasSub p xs

/-- Whether the string `p` occurs as a substring of `s`. -/
def strHasSub (p s : String) : Bool := listHasSub p.data s.data

/-! ## Helper lemmas -/

theorem charListEq_eq_true_iff : ∀ as bs : List Char, charListEq as bs = true ↔ as = bs
  | [], [] => by simp [charListEq]
  | _ :: _, [] => by simp [charListEq]
  | [], _ :: _ => by simp [charListEq]
  | a :: as, b :: bs => by
    simp [charListEq, Bool.and_eq_true, charListEq_eq_true_iff as bs]

theorem jsStrEq_eq_true_iff (a b : String) : jsStrEq a b = true ↔ a = b := by
  cases a; cases b
  rw [jsStrEq, charListEq_eq_true_iff]
  exact ⟨congrArg String.mk, congrArg String.data⟩

theorem jsStrEq_false_of_ne {a b : String} (h : a ≠ b) : jsStrEq a b = false := by
  cases hj : jsStrEq a b with
  | false => rfl
  | true => exact absurd ((jsStrEq_eq_true_iff a b).1 hj) h

theorem verifyTOTP_decodeNone {secret : String} (h : base32Decode secret = none)
    (code : String) (t : Nat) : verifyTOTP code secret t = false := by
  simp [verifyTOTP, h]

theorem verifyTOTP_decodeSome {secret : String} {key : List Nat}
    (h : base32Decode secret = some key) (code : String) (t : Nat) :
    verifyTOTP code secret t =
      (jsStrEq code (totpAt verifyTotpParams key t) ||
       jsStrEq code (totpAt verifyTotpParams key (t - 30000)) ||
       jsStrEq code (totpAt verifyTotpParams key (t + 30000))) := by
  simp [verifyTOTP, h]

theorem verifyTOTP_true_iff {secret : String} {key : List Nat}
    (h : base32Decode secret = some key) (code : String) (t : Nat) :
    verifyTOTP code secret t = true ↔
      (code = totpAt verifyTotpParams key t ∨
       code = totpAt verifyTotpParams key (t - 30000) ∨
       code = totpAt verifyTotpParams key (t + 30000)) := by
  rw [verifyTOTP_decodeSome h]
  simp [Bool.or_eq_true, jsStrEq_eq_true_iff, or_assoc]

theorem totpAt_verify_eq (key : List Nat) (x : Nat) :
    totpAt verifyTotpParams key x = hotp verifyTotpParams key (x / 30000) := rfl

theorem div30000_sub_one {t : Nat} (h : 30000 ≤ t) :
    (t - 30000) / 30000 = t / 30000 - 1 := by
  have := Nat.sub_mul_div t 30000 1 (by omega)
  simpa using this

theorem div30000_sub_two {t : Nat} (h : 60000 ≤ t) :
    (t - 60000) / 30000 = t / 30000 - 2 := by
  have := Nat.sub_mul_div t 30000 2 (by omega)
  norm_num at this
  exact this

theorem div30000_add_one (t : Nat) : (t + 30000) / 30000 = t / 30000 + 1 :=
  Nat.add_div_right t (by norm_num)

theorem totpFormat_length (d n : Nat) : (totpFormat d n).length = d := by
  simp [totpFormat, String.length]

theorem charOfNat_digit : ∀ m, m < 10 → (Char.ofNat (48 + m)).isDigit = true := by
  decide

theorem totpFormat_all_digits (d n : Nat) :
    ∀ c ∈ (totpFormat d n).data, c.isDigit = true := by
  intro c hc
  have : (totpFormat d n).data =
      (List.range d).reverse.map (fun i => Char.ofNat (48 + (n / 10 ^ i) % 10)) := rfl
  rw [this] at hc
  obtain ⟨i, -, rfl⟩ := List.mem_map.1 hc
  exact charOfNat_digit _ (Nat.mod_lt _ (by norm_num))

theorem hotp_length (p : TotpParameters) (key : List Nat) (c : Nat) :
    (hotp p key c).length = p.digits :=
  totpFormat_length p.digits _

theorem hotp_all_digits (p : TotpParameters) (key : List Nat) (c : Nat) :
    ∀ ch ∈ (hotp p key c).data, ch.isDigit = true :=
  totpFormat_all_digits p.digits _

theorem listHasSub_append_left (l1 : List Char) {p l2 : List Char}
    (h : listHasSub p l2 = true) : listHasSub p (l1 ++ l2) = true := by
  induction l1 with
  | nil => simpa using h
  | cons x xs ih =>
    show (listStartsWith p (x :: (xs ++ l2)) || listHasSub p (xs ++ l2)) = true
    rw [ih]
    simp

theorem strHasSub_append {p : String} (s1 : String) {s2 : String}
    (h : strHasSub p s2 = true) : strHasSub p (s1 ++ s2) = true := by
  show listHasSub p.data (s1 ++ s2).data = true
  rw [String.data_append]
  exact listHasSub_append_left s1.data h

theorem base32_alphabet_closed :
    ∀ v : Fin 32, BASE32_CHARS.data.contains (BASE32_CHARS.data.getD v.val 'A') = true := by
  decide

/-! ## Claim theorems -/

/-- C2: the MFA secret generator is claimed to draw its 16 character choices
from a cryptographically secure random source; the source instead draws every
index from `Math.random()` (src/utils/mfa.ts line 14), which is not a
CSPRNG — the spec's correctness-critical invariant is violated. -/
theorem generateMFASecret_source_not_csprng :
    generateMFASecretSource = RandomSource.mathRandom ∧
    RandomSource.isCSPRNG generateMFASecretSource = false :=
  ⟨rfl, rfl⟩

/-- C3: `verifyTOTP` does return true iff the supplied code equals one of the
three candidate tokens, but the comparison the source applies (`===`, modelled
by `jsStrEq`) is an early-exit comparison, not a constant-time one: on
equal-length inputs its number of character comparisons depends on the length
of the matching prefix (6 steps for a full match of `000000` against itself,
1 step for `100000` against `000000`). -/
theorem verifyTOTP_comparison_early_exit :
    (∀ a b : String, jsStrEq a b = true ↔ a = b) ∧
    ("000000" : String).length = ("100000" : String).length ∧
    jsStrEqSteps "000000" "000000" = 6 ∧
    jsStrEqSteps "100000" "000000" = 1 :=
  ⟨jsStrEq_eq_true_iff, by decide, by decide, by decide⟩

/-- C7: every string `generateMFASecret` returns has length exactly 16 and
consists only of characters of the RFC 4648 Base32 alphabet `A-Z2-7`
(uppercase, no padding), whatever values the random draws take. -/
theorem generateMFASecret_shape :
    ∀ r : Nat → Fin 32,
      (generateMFASecret r).length = 16 ∧
      ((generateMFASecret r).data.all
        (fun c => BASE32_CHARS.data.contains c)) = true := by
  intro r
  refine ⟨rfl, ?_⟩
  have hdata : (generateMFASecret r).data =
      (List.range 16).map (fun i => BASE32_CHARS.data.getD (r i) 'A') := rfl
  rw [hdata, List.all_eq_true]
  intro x hx
  obtain ⟨i, -, rfl⟩ := List.mem_map.1 hx
  exact base32_alphabet_closed (r i)

/-- C8: with a file selected and no prior encryption result, `handleEncrypt`
is atomic from the caller's view: a successful `encryptFile` outcome yields
the complete stored result with the `encrypted` flag and confirmation screen
set, and a failed outcome leaves the stored encryption result `null` and the
`encrypted` flag false. -/
theorem handleEncrypt_atomic (s : UploadModalState)
    (outcome : Except String EncryptionResult)
    (hf : s.file.isSome = true) (h1 : s.encryptionResult = none)
    (h2 : s.encrypted = false) :
    (∀ r, outcome = Except.ok r →
      (handleEncrypt s outcome).encryptionResult = some r ∧
      (handleEncrypt s outcome).encrypted = true ∧
      (handleEncrypt s outcome).showEncryptionConfirmation = true) ∧
    (∀ e, outcome = Except.error e →
      (handleEncrypt s outcome).encryptionResult = none ∧
      (handleEncrypt s outcome).encrypted = false) := by
  obtain ⟨f, hf2⟩ := Option.isSome_iff_exists.1 hf
  constructor
  · rintro r rfl
    simp [handleEncrypt, hf2]
  · rintro e rfl
    simp [handleEncrypt, hf2, h1, h2]

/-- Witness for C8 at a concrete state and a failing encryption outcome. -/
theorem handleEncrypt_atomic_witness :
    ((⟨some ⟨"a.txt", "text/plain", 3, 0⟩, none, false, false, true, none,
       false, none, [], false, none, false⟩ :
        UploadModalState).file.isSome = true) ∧
    (handleEncrypt
      (⟨some ⟨"a.txt", "text/plain", 3, 0⟩, none, false, false, true, none,
        false, none, [], false, none, false⟩ : UploadModalState)
      (Except.error "boom")).encryptionResult = none ∧
    (handleEncrypt
      (⟨some ⟨"a.txt", "text/plain", 3, 0⟩, none, false, false, true, none,
        false, none, [], false, none, false⟩ : UploadModalState)
      (Except.error "boom")).encrypted = false := by
  refine ⟨rfl, ?_⟩
  exact (handleEncrypt_atomic
    (⟨some ⟨"a.txt", "text/plain", 3, 0⟩, none, false, false, true, none,
      false, none, [], false, none, false⟩ : UploadModalState)
    (Except.error "boom") rfl rfl rfl).2 "boom" rfl

/-- C10: selecting a file through the change handler or the drop handler
always discards previous encryption state: the `encrypted` flag is cleared,
the stored encryption result becomes `null`, and the confirmation screen is
hidden, for every starting state and every selected file. -/
theorem select_file_resets_encryption :
    ∀ (s : UploadModalState) (f : JsFile),
      ((handleFileChange s (some f)).encrypted = false ∧
       (handleFileChange s (some f)).encryptionResult = none ∧
       (handleFileChange s (some f)).showEncryptionConfirmation = false) ∧
      ((handleDrop s (some f)).encrypted = false ∧
       (handleDrop s (some f)).encryptionResult = none ∧
       (handleDrop s (some f)).showEncryptionConfirmation = false) :=
  fun _ _ => ⟨⟨rfl, rfl, rfl⟩, ⟨rfl, rfl, rfl⟩⟩

/-- C4: the provisioning URI has exactly the form
`otpauth://totp/{issuer}:{accountLabel}?secret={base32}&issuer={issuer}&algorithm=SHA1&digits=6&period=30`
with the account label and issuer percent-encoded and the secret emitted raw;
for secret `JBSWY3DPEHPK3PXP`, label `alice@example.com` and issuer
`SecureVault` it contains the substrings `secret=JBSWY3DPEHPK3PXP`,
`issuer=SecureVault`, `digits=6` and `period=30`. -/
theorem otpAuthUrl_form :
    (∀ secret email appName,
      otpAuthUrl secret email appName =
        "otpauth://totp/" ++ encodeURIComponent appName ++ ":" ++
          encodeURIComponent email ++ "?secret=" ++ secret ++ "&issuer=" ++
          encodeURIComponent appName ++ "&algorithm=SHA1&digits=6&period=30") ∧
    encodeURIComponent "alice@example.com" = "alice%40example.com" ∧
    encodeURIComponent "SecureVault" = "SecureVault" ∧
    strHasSub "secret=JBSWY3DPEHPK3PXP"
      (otpAuthUrl "JBSWY3DPEHPK3PXP" "alice@example.com" "SecureVault") = true ∧
    strHasSub "issuer=SecureVault"
      (otpAuthUrl "JBSWY3DPEHPK3PXP" "alice@example.com" "SecureVault") = true ∧
    strHasSub "digits=6"
      (otpAuthUrl "JBSWY3DPEHPK3PXP" "alice@example.com" "SecureVault") = true ∧
    strHasSub "period=30"
      (otpAuthUrl "JBSWY3DPEHPK3PXP" "alice@example.com" "SecureVault") = true :=
  ⟨fun _ _ _ => rfl, by decide, by decide, by decide, by decide, by decide,
   by decide⟩

/-- C9: provisioning and verification agree on the TOTP parameters: the
parameter record `verifyTOTP` fixes is SHA1 / 6 digits / 30 seconds, and for
every secret, label and issuer the provisioning URI advertises exactly those
parameter values. -/
theorem provisioning_matches_verification :
    verifyTotpParams.algorithm = "SHA1" ∧ verifyTotpParams.digits = 6 ∧
    verifyTotpParams.period = 30 ∧
    ∀ secret email appName,
      strHasSub
        ("algorithm=" ++ verifyTotpParams.algorithm ++ "&digits=" ++
          toString verifyTotpParams.digits ++ "&period=" ++
          toString verifyTotpParams.period)
        (otpAuthUrl secret email appName) = true := by
  refine ⟨rfl, rfl, rfl, fun secret email appName => ?_⟩
  have hpat : ("algorithm=" ++ verifyTotpParams.algorithm ++ "&digits=" ++
      toString verifyTotpParams.digits ++ "&period=" ++
      toString verifyTotpParams.period) = "algorithm=SHA1&digits=6&period=30" := by
    decide
  rw [hpat]
  exact strHasSub_append _ (by decide)

/-- C5: a code whose length differs from the configured 6 digits, or that
contains a non-numeric character, can never equal one of the generated
six-digit numeric tokens, so `verifyTOTP` returns false for it (the function
is total — nothing is thrown). -/
theorem verifyTOTP_rejects_malformed_code (code secret : String) (t : Nat)
    (h : code.length ≠ 6 ∨ code.data.any (fun c => !c.isDigit) = true) :
    verifyTOTP code secret t = false := by
  cases hdec : base32Decode secret with
  | none => exact verifyTOTP_decodeNone hdec code t
  | some key =>
    have hne : ∀ c : Nat, code ≠ hotp verifyTotpParams key c := by
      intro c heq
      rcases h with h | h
      · exact h (heq ▸ hotp_length verifyTotpParams key c)
      · obtain ⟨ch, hch, hnd⟩ := List.any_eq_true.1 h
        have hd : ch.isDigit = true :=
          hotp_all_digits verifyTotpParams key c ch (heq ▸ hch)
        simp [hd] at hnd
    rw [verifyTOTP_decodeSome hdec]
    simp only [totpAt_verify_eq]
    rw [jsStrEq_false_of_ne (hne _), jsStrEq_false_of_ne (hne _),
        jsStrEq_false_of_ne (hne _)]
    rfl

/-- Witness for C5: the five-character code `12345` is rejected at a concrete
secret and time. -/
theorem verifyTOTP_rejects_malformed_code_witness :
    ("12345" : String).length ≠ 6 ∧
    verifyTOTP "12345" "JBSWY3DPEHPK3PXP" 90000 = false :=
  ⟨by decide,
   verifyTOTP_rejects_malformed_code "12345" "JBSWY3DPEHPK3PXP" 90000
     (Or.inl (by decide))⟩

/-- C6: a secret that is not valid Base32 makes `verifyTOTP` return false for
every code and every time; the decoding failure is absorbed (the function is
total), exactly as the source's catch-all returns false. -/
theorem verifyTOTP_malformed_secret (secret : String)
    (h : base32Decode secret = none) :
    ∀ (code : String) (t : Nat), verifyTOTP code secret t = false :=
  fun code t => verifyTOTP_decodeNone h code t

/-- Witness for C6: the string `!!!!` is not Base32 and every verification
against it fails. -/
theorem verifyTOTP_malformed_secret_witness :
    base32Decode "!!!!" = none ∧ verifyTOTP "123456" "!!!!" 0 = false :=
  ⟨by decide, verifyTOTP_malformed_secret "!!!!" (by decide) "123456" 0⟩

/-- C1 (amended): for a secret that decodes to `key` and a reference time `t`
(milliseconds, at least two periods after the epoch), `verifyTOTP` accepts a
code iff it equals the TOTP code of the current, the immediately previous, or
the immediately next 30-second time step — a tolerance of exactly ±1 step,
never wider.  Consequently a code generated one period before `t` verifies,
and a code generated two periods before `t` fails — provided that code
differs from each of the three in-window codes (the proviso the
counterexample below forces: two counters can coincidentally share one
six-digit code value). -/
theorem verifyTOTP_tolerance_window (secret : String) (key : List Nat)
    (t : Nat) (hk : base32Decode secret = some key) (ht : 60000 ≤ t) :
    (∀ code, verifyTOTP code secret t = true ↔
      (code = hotp verifyTotpParams key (t / 30000) ∨
       code = hotp verifyTotpParams key (t / 30000 - 1) ∨
       code = hotp verifyTotpParams key (t / 30000 + 1))) ∧
    verifyTOTP (totpAt verifyTotpParams key (t - 30000)) secret t = true ∧
    (hotp verifyTotpParams key (t / 30000 - 2) ≠
        hotp verifyTotpParams key (t / 30000) →
     hotp verifyTotpParams key (t / 30000 - 2) ≠
        hotp verifyTotpParams key (t / 30000 - 1) →
     hotp verifyTotpParams key (t / 30000 - 2) ≠
        hotp verifyTotpParams key (t / 30000 + 1) →
     verifyTOTP (totpAt verifyTotpParams key (t - 60000)) secret t = false) := by
  have h1 : (t - 30000) / 30000 = t / 30000 - 1 := div30000_sub_one (by omega)
  have h2 : (t + 30000) / 30000 = t / 30000 + 1 := div30000_add_one t
  have h3 : (t - 60000) / 30000 = t / 30000 - 2 := div30000_sub_two ht
  have hiff : ∀ code, verifyTOTP code secret t = true ↔
      (code = hotp verifyTotpParams key (t / 30000) ∨
       code = hotp verifyTotpParams key (t / 30000 - 1) ∨
       code = hotp verifyTotpParams key (t / 30000 + 1)) := by
    intro code
    rw [verifyTOTP_true_iff hk]
    simp only [totpAt_verify_eq]
    rw [h1, h2]
  refine ⟨hiff, ?_, ?_⟩
  · rw [hiff]
    right; left
    rw [totpAt_verify_eq, h1]
  · intro hne1 hne2 hne3
    rw [verifyTOTP_decodeSome hk]
    simp only [totpAt_verify_eq]
    rw [h1, h2, h3]
    rw [jsStrEq_false_of_ne hne1, jsStrEq_false_of_ne hne2,
        jsStrEq_false_of_ne hne3]
    rfl

/-- Witness for C1 at secret `JBSWY3DPEHPK3PXP` and reference time 90000 ms:
the code generated one period earlier verifies. -/
theorem verifyTOTP_tolerance_window_witness :
    base32Decode "JBSWY3DPEHPK3PXP" =
      some [72, 101, 108, 108, 111, 33, 222, 173, 190, 239] ∧
    60000 ≤ 90000 ∧
    verifyTOTP
      (totpAt verifyTotpParams [72, 101, 108, 108, 111, 33, 222, 173, 190, 239]
        (90000 - 30000))
      "JBSWY3DPEHPK3PXP" 90000 = true :=
  ⟨by decide, by decide,
   (verifyTOTP_tolerance_window "JBSWY3DPEHPK3PXP"
     [72, 101, 108, 108, 111, 33, 222, 173, 190, 239] 90000
     (by decide) (by decide)).2.1⟩

set_option maxRecDepth 100000 in
set_option maxHeartbeats 4000000 in
/-- Counterexample to C1 as frozen: at reference time 24560010000 ms (time
step 818667) with secret `JBSWY3DPEHPK3PXP`, the code generated two periods
before the reference time coincides with the current step's code (both are
`475244`), so `verifyTOTP` accepts it — "a code generated two periods before
it does not [verify]" fails. -/
theorem verifyTOTP_two_periods_counterexample :
    base32Decode "JBSWY3DPEHPK3PXP" =
      some [72, 101, 108, 108, 111, 33, 222, 173, 190, 239] ∧
    verifyTOTP
      (totpAt verifyTotpParams [72, 101, 108, 108, 111, 33, 222, 173, 190, 239]
        (24560010000 - 60000))
      "JBSWY3DPEHPK3PXP" 24560010000 = true := by
  constructor
  · decide
  · rw [verifyTOTP_true_iff
      (show base32Decode "JBSWY3DPEHPK3PXP" =
        some [72, 101, 108, 108, 111, 33, 222, 173, 190, 239] by decide)]
    left
    decide
